/-
Verification of the glyph-atlas renderer in src/renderer/atlas/AtlasEngine.r.cpp.

The C++ functions are shallowly embedded as executable Lean definitions:
  * machine `u32`/`u16` arithmetic is modelled on `Nat`, with an explicit
    `% 2 ^ 32` (resp. `% 2 ^ 16`) at every operation whose C++ counterpart can
    exceed the machine width for `u16`-valued engine fields
    (the atlas limits, fill position and cell size are `u16` quantities,
    as the source notes at the narrowing casts);
  * `_BitScanReverse` on a nonzero `u32` is the index of the highest set bit,
    modelled by a fuel-bounded binary logarithm `log2fuel 32`;
  * device-independent-pixel (`float`) cursor geometry is modelled over `ℚ`:
    the claims about it are structural (which rectangles with which corner
    expressions are produced), not about rounding;
  * the fallible GPU/D2D calls of `Present` (every `THROW_IF_FAILED` site)
    are modelled as an ordered call list executed against an oracle that
    assigns each call an HRESULT; a negative HRESULT throws, which aborts the
    frame and is returned from `Present` by the surrounding catch block.
-/
import Mathlib

namespace AtlasEngine

/-! ## Bit-scan-reverse (highest set bit) -/

/-- Fuel-bounded binary logarithm: `log2fuel 32 n` is the index of the highest
set bit of a `u32` value `n ≥ 1`, i.e. the result of `_BitScanReverse(&index, n)`
at AtlasEngine.r.cpp:221. Fuel 32 is exact for all `n < 2 ^ 32`. -/
def log2fuel : Nat → Nat → Nat
  | 0, _ => 0
  | fuel + 1, n => if 2 ≤ n then log2fuel fuel (n / 2) + 1 else 0

/-- Characterisation of `log2fuel`: for `1 ≤ n < 2 ^ fuel` it brackets `n`
between consecutive powers of two. -/
theorem log2fuel_spec : ∀ fuel n, 1 ≤ n → n < 2 ^ fuel →
    2 ^ log2fuel fuel n ≤ n ∧ n < 2 ^ (log2fuel fuel n + 1) := by
  intro fuel
  induction fuel with
  | zero =>
    intro n h1 h2
    simp only [pow_zero] at h2
    omega
  | succ f ih =>
    intro n h1 h2
    by_cases h : 2 ≤ n
    · have hdvd := Nat.div_add_mod n 2
      have hmod : n % 2 < 2 := Nat.mod_lt _ (by omega)
      have hn1 : 1 ≤ n / 2 := by omega
      have hn2 : n / 2 < 2 ^ f := by
        have hp : 2 ^ (f + 1) = 2 ^ f * 2 := by rw [pow_succ]
        rw [hp] at h2
        omega
      obtain ⟨ha, hb⟩ := ih (n / 2) hn1 hn2
      have hu : log2fuel (f + 1) n = log2fuel f (n / 2) + 1 := by
        simp [log2fuel, h]
      rw [hu]
      constructor
      · have : 2 ^ (log2fuel f (n / 2) + 1) = 2 ^ log2fuel f (n / 2) * 2 := by
          rw [pow_succ]
        omega
      · have : 2 ^ (log2fuel f (n / 2) + 1 + 1) = 2 ^ (log2fuel f (n / 2) + 1) * 2 := by
          rw [pow_succ]
        omega
    · have hn : n = 1 := by omega
      subst hn
      simp [log2fuel]

/-- Ceiling-division times divisor dominates the dividend:
`a ≤ ((a + P - 1) / P) * P` for `P > 0`. -/
theorem le_ceil_mul (a P : Nat) (hP : 0 < P) : a ≤ (a + P - 1) / P * P := by
  have h := Nat.div_add_mod (a + P - 1) P
  have hr : (a + P - 1) % P < P := Nat.mod_lt _ hP
  have hc : P * ((a + P - 1) / P) = (a + P - 1) / P * P := Nat.mul_comm _ _
  omega

/-! ## `AtlasEngine::_adjustAtlasSize` (AtlasEngine.r.cpp:184-277)

The locals of the C++ function are embedded one definition each, in source
order.  All six inputs are `u16`-valued engine fields
(`_r.atlasSizeInPixelLimit`, `_r.atlasPosition`, `_r.cellSize`), combined in
`u32` arithmetic; the operations that can exceed `u32` for `u16` inputs carry
an explicit `% 2 ^ 32`. -/

/-- Resize trigger, lines 186-189: `_adjustAtlasSize` returns immediately iff
`atlasPosition.y < atlasSizeInPixel.y && atlasPosition.x < atlasSizeInPixel.x`. -/
def atlasNeedsResize (posX posY sizeX sizeY : Nat) : Bool :=
  !(decide (posY < sizeY) && decide (posX < sizeX))

/-- Line 197: `perCellArea = cellX * cellY` (product of two `u16` values, no
`u32` overflow possible). -/
def atlasPerCellArea (cellX cellY : Nat) : Nat := cellX * cellY

/-- Line 212: `currentArea = posY * limitX + posX * cellY` — pixels already
consumed: full rows plus the partial row at the fill cursor. -/
def atlasCurrentArea (limitX posX posY cellY : Nat) : Nat :=
  (posY * limitX + posX * cellY) % 2 ^ 32

/-- Line 214: `minArea = 64 * perCellArea` — floor of 64 cells of headroom. -/
def atlasMinArea (cellX cellY : Nat) : Nat :=
  (64 * atlasPerCellArea cellX cellY) % 2 ^ 32

/-- Lines 215-222: `newArea = max(minArea, currentArea)` followed by
`_BitScanReverse(&index, newArea); newArea = 1u << (index + 1)`. -/
def atlasNewArea (limitX posX posY cellX cellY : Nat) : Nat :=
  2 ^ (log2fuel 32 (max (atlasMinArea cellX cellY) (atlasCurrentArea limitX posX posY cellY)) + 1)
    % 2 ^ 32

/-- Line 224: `pixelPerRow = limitX * cellY`. -/
def atlasPixelPerRow (limitX cellY : Nat) : Nat := limitX * cellY

/-- Line 227: `wantedHeight = (newArea + pixelPerRow - 1) / pixelPerRow * cellY`
(round `newArea` up to the next multiple of a full pixel row, in rows of cells). -/
def atlasWantedHeight (limitX posX posY cellX cellY : Nat) : Nat :=
  (atlasNewArea limitX posX posY cellX cellY + atlasPixelPerRow limitX cellY - 1) % 2 ^ 32
    / atlasPixelPerRow limitX cellY * cellY % 2 ^ 32

/-- Line 230: `wantedWidth = wantedHeight != cellY ? limitX : newArea / perCellArea * cellX`. -/
def atlasWantedWidth (limitX posX posY cellX cellY : Nat) : Nat :=
  if atlasWantedHeight limitX posX posY cellX cellY ≠ cellY then limitX
  else atlasNewArea limitX posX posY cellX cellY / atlasPerCellArea cellX cellY * cellX

/-- Lines 233-234: the final `(width, height)` of the recreated texture —
both wanted dimensions clamped to the hardware limit and narrowed back
to `u16`. -/
def adjustAtlasCalc (limitX limitY posX posY cellX cellY : Nat) : Nat × Nat :=
  (min limitX (atlasWantedWidth limitX posX posY cellX cellY) % 2 ^ 16,
   min limitY (atlasWantedHeight limitX posX posY cellX cellY) % 2 ^ 16)

/-! ### No-overflow normalisation of the atlas-size computation

All engine fields feeding `_adjustAtlasSize` are `u16` quantities, and any
realistic configuration satisfies the bounds below (`2 ^ 31` leaves the
doubling step inside `u32`); under them every explicit `% 2 ^ 32` / `% 2 ^ 16`
in the embedding is the identity and the computation is plain arithmetic. -/

theorem min_mod16 (a b : Nat) (ha : a < 2 ^ 16) : min a b % 2 ^ 16 = min a b :=
  Nat.mod_eq_of_lt (lt_of_le_of_lt (min_le_left a b) ha)

theorem atlasMax_eq (limitX posX posY cellX cellY : Nat)
    (hb : max (64 * (cellX * cellY)) (posY * limitX + posX * cellY) < 2 ^ 31) :
    max (atlasMinArea cellX cellY) (atlasCurrentArea limitX posX posY cellY)
      = max (64 * (cellX * cellY)) (posY * limitX + posX * cellY) := by
  have e : (2 : Nat) ^ 31 < 2 ^ 32 := by norm_num
  have h1 : 64 * (cellX * cellY) < 2 ^ 32 :=
    lt_trans (lt_of_le_of_lt (le_max_left _ _) hb) e
  have h2 : posY * limitX + posX * cellY < 2 ^ 32 :=
    lt_trans (lt_of_le_of_lt (le_max_right _ _) hb) e
  unfold atlasMinArea atlasCurrentArea atlasPerCellArea
  rw [Nat.mod_eq_of_lt h1, Nat.mod_eq_of_lt h2]

/-- Under the no-overflow bounds, the computed `newArea` is `2 ^ (k + 1)` for
the unique `k` with `2 ^ k ≤ max(minArea, currentArea) < 2 ^ (k + 1)`. -/
theorem atlasNewArea_spec (limitX posX posY cellX cellY : Nat)
    (hx : 0 < cellX) (hy : 0 < cellY)
    (hb : max (64 * (cellX * cellY)) (posY * limitX + posX * cellY) < 2 ^ 31) :
    ∃ k, atlasNewArea limitX posX posY cellX cellY = 2 ^ (k + 1) ∧
      2 ^ k ≤ max (64 * (cellX * cellY)) (posY * limitX + posX * cellY) ∧
      max (64 * (cellX * cellY)) (posY * limitX + posX * cellY) < 2 ^ (k + 1) ∧
      2 ^ (k + 1) ≤ 2 ^ 31 := by
  have hM1 : 1 ≤ max (64 * (cellX * cellY)) (posY * limitX + posX * cellY) :=
    le_trans (Nat.mul_pos (by norm_num) (Nat.mul_pos hx hy)) (le_max_left _ _)
  have hM32 : max (64 * (cellX * cellY)) (posY * limitX + posX * cellY) < 2 ^ 32 :=
    lt_trans hb (by norm_num)
  obtain ⟨ha, hb'⟩ := log2fuel_spec 32 _ hM1 hM32
  have hk : log2fuel 32 (max (64 * (cellX * cellY)) (posY * limitX + posX * cellY)) < 31 := by
    by_contra hcon
    push_neg at hcon
    have : (2 : Nat) ^ 31 ≤ 2 ^ log2fuel 32 (max (64 * (cellX * cellY)) (posY * limitX + posX * cellY)) :=
      Nat.pow_le_pow_right (by norm_num) hcon
    omega
  refine ⟨log2fuel 32 (max (64 * (cellX * cellY)) (posY * limitX + posX * cellY)), ?_, ha, hb', ?_⟩
  · unfold atlasNewArea
    rw [atlasMax_eq limitX posX posY cellX cellY hb]
    have hlt : (2 : Nat) ^ (log2fuel 32 (max (64 * (cellX * cellY)) (posY * limitX + posX * cellY)) + 1)
        < 2 ^ 32 := Nat.pow_lt_pow_right (by norm_num) (by omega)
    rw [Nat.mod_eq_of_lt hlt]
  · exact Nat.pow_le_pow_right (by norm_num) (by omega)

/-- Under the no-overflow bounds, `wantedHeight` is plain ceiling arithmetic. -/
theorem atlasWantedHeight_eq (limitX posX posY cellX cellY : Nat)
    (hx : 0 < cellX) (hy : 0 < cellY) (hL : 0 < limitX)
    (hb : max (64 * (cellX * cellY)) (posY * limitX + posX * cellY) < 2 ^ 31)
    (hP : limitX * cellY < 2 ^ 31) :
    atlasWantedHeight limitX posX posY cellX cellY =
      (atlasNewArea limitX posX posY cellX cellY + limitX * cellY - 1)
        / (limitX * cellY) * cellY := by
  obtain ⟨k, hA, _, _, hA31⟩ := atlasNewArea_spec limitX posX posY cellX cellY hx hy hb
  have e32 : (2 : Nat) ^ 32 = 4294967296 := by norm_num
  have e31 : (2 : Nat) ^ 31 = 2147483648 := by norm_num
  have hAle : atlasNewArea limitX posX posY cellX cellY ≤ 2 ^ 31 := by rw [hA]; exact hA31
  have hsum : atlasNewArea limitX posX posY cellX cellY + limitX * cellY - 1 < 2 ^ 32 := by
    omega
  have hq : (atlasNewArea limitX posX posY cellX cellY + limitX * cellY - 1)
      / (limitX * cellY) * cellY < 2 ^ 32 := by
    have h1 : (atlasNewArea limitX posX posY cellX cellY + limitX * cellY - 1)
        / (limitX * cellY) * cellY
        ≤ (atlasNewArea limitX posX posY cellX cellY + limitX * cellY - 1)
          / (limitX * cellY) * (limitX * cellY) :=
      Nat.mul_le_mul_left _ (Nat.le_mul_of_pos_left cellY hL)
    have h2 : (atlasNewArea limitX posX posY cellX cellY + limitX * cellY - 1)
        / (limitX * cellY) * (limitX * cellY)
        ≤ atlasNewArea limitX posX posY cellX cellY + limitX * cellY - 1 :=
      Nat.div_mul_le_self _ _
    omega
  unfold atlasWantedHeight atlasPixelPerRow
  rw [Nat.mod_eq_of_lt hsum, Nat.mod_eq_of_lt hq]

/-! ### Claim theorems about `_adjustAtlasSize` -/

/-- C8: after every atlas growth, the computed new atlas area is a power of two
and is at least `max(64 * cellArea, currentArea)`, where
`currentArea = posY * limitX + posX * cellY` (full rows plus the partial row at
the fill cursor), lines 212-222. -/
theorem atlas_growth_area_pow2_and_ge (limitX posX posY cellX cellY : Nat)
    (hx : 0 < cellX) (hy : 0 < cellY)
    (hb : max (64 * (cellX * cellY)) (posY * limitX + posX * cellY) < 2 ^ 31) :
    (∃ k, atlasNewArea limitX posX posY cellX cellY = 2 ^ k) ∧
      max (64 * (cellX * cellY)) (posY * limitX + posX * cellY)
        ≤ atlasNewArea limitX posX posY cellX cellY := by
  obtain ⟨k, hA, _, hlt, _⟩ := atlasNewArea_spec limitX posX posY cellX cellY hx hy hb
  exact ⟨⟨k + 1, hA⟩, by omega⟩

/-- Witness for C8 at the spec's own example configuration
(`limit 2048×2048`, `cell 8×16`, cold start). -/
theorem atlas_growth_area_pow2_and_ge_witness :
    (∃ k, atlasNewArea 2048 0 0 8 16 = 2 ^ k) ∧
      max (64 * (8 * 16)) (0 * 2048 + 0 * 16) ≤ atlasNewArea 2048 0 0 8 16 :=
  atlas_growth_area_pow2_and_ge 2048 0 0 8 16 (by decide) (by decide) (by decide)

/-! ### The texture-size formula as claim C2 words it (for comparison) -/

/-- Rounding up to a power of two in the usual sense of the phrase
`roundUpToPowerOfTwo`: the smallest power of two that is greater than or
equal to `n` (exact for all `n < 2 ^ 32`; definition follows the claim's
words, not the source). -/
def roundUpToPowerOfTwo (n : Nat) : Nat :=
  if n ≤ 1 then 1 else 2 ^ (log2fuel 32 (n - 1) + 1)

/-- The new texture size exactly as claim C2 states it:
`newArea = roundUpToPowerOfTwo(max(64 * cellArea, currentArea))`, then the
`wantedHeight` / `wantedWidth` / clamping steps (definition follows the
claim's words, to be compared against `adjustAtlasCalc`). -/
def claimedAtlasCalc (limitX limitY posX posY cellX cellY : Nat) : Nat × Nat :=
  let newArea := roundUpToPowerOfTwo (max (64 * (cellX * cellY)) (posY * limitX + posX * cellY))
  let wantedHeight := (newArea + limitX * cellY - 1) / (limitX * cellY) * cellY
  let wantedWidth := if wantedHeight ≠ cellY then limitX else newArea / (cellX * cellY) * cellX
  (min limitX wantedWidth, min limitY wantedHeight)

/-- C2 counterexample: with limit `2048×2048`, cell `8×16` and an empty atlas
(fill cursor at the origin), `max(64 * cellArea, currentArea) = 8192` is already
a power of two; the code's `_BitScanReverse` + shift doubles it to `16384`
(yielding a `1024×16` texture), whereas the claim's
`roundUpToPowerOfTwo` formula keeps `8192` (yielding `512×16`). -/
theorem adjustAtlasCalc_ne_claimed :
    adjustAtlasCalc 2048 2048 0 0 8 16 = (1024, 16) ∧
    claimedAtlasCalc 2048 2048 0 0 8 16 = (512, 16) ∧
    adjustAtlasCalc 2048 2048 0 0 8 16 ≠ claimedAtlasCalc 2048 2048 0 0 8 16 := by
  refine ⟨by decide, by decide, by decide⟩

/-- C2 (amended): whenever the atlas capacity check triggers a growth, the new
texture size is computed from `newArea = 2 ^ (k + 1)` where
`2 ^ k ≤ max(64 * cellArea, currentArea) < 2 ^ (k + 1)` — i.e. the smallest
power of two STRICTLY greater than `max(64 * cellArea, currentArea)` — then
`wantedHeight = ceil(newArea / (limitX * cellY)) * cellY`,
`wantedWidth = limitX` if the result spans more than one row and
`newArea / cellArea * cellX` otherwise, and both dimensions are clamped to the
hardware limit. -/
theorem adjustAtlasCalc_formula (limitX limitY posX posY cellX cellY : Nat)
    (hx : 0 < cellX) (hy : 0 < cellY) (hL : 0 < limitX)
    (hLX : limitX < 2 ^ 16) (hLY : limitY < 2 ^ 16)
    (hb : max (64 * (cellX * cellY)) (posY * limitX + posX * cellY) < 2 ^ 31)
    (hP : limitX * cellY < 2 ^ 31) :
    ∃ k, 2 ^ k ≤ max (64 * (cellX * cellY)) (posY * limitX + posX * cellY) ∧
      max (64 * (cellX * cellY)) (posY * limitX + posX * cellY) < 2 ^ (k + 1) ∧
      adjustAtlasCalc limitX limitY posX posY cellX cellY =
        (min limitX (if (2 ^ (k + 1) + limitX * cellY - 1) / (limitX * cellY) * cellY ≠ cellY
                     then limitX
                     else 2 ^ (k + 1) / (cellX * cellY) * cellX),
         min limitY ((2 ^ (k + 1) + limitX * cellY - 1) / (limitX * cellY) * cellY)) := by
  obtain ⟨k, hA, hk1, hk2, _⟩ := atlasNewArea_spec limitX posX posY cellX cellY hx hy hb
  have hH := atlasWantedHeight_eq limitX posX posY cellX cellY hx hy hL hb hP
  refine ⟨k, hk1, hk2, ?_⟩
  unfold adjustAtlasCalc atlasWantedWidth atlasPerCellArea
  rw [hH, hA, min_mod16 _ _ hLX, min_mod16 _ _ hLY]

/-- Witness for the amended C2 after one full row has been consumed
(`limit 2048×2048`, `cell 8×16`, fill cursor `(0, 16)`). -/
theorem adjustAtlasCalc_formula_witness :
    ∃ k, 2 ^ k ≤ max (64 * (8 * 16)) (16 * 2048 + 0 * 16) ∧
      max (64 * (8 * 16)) (16 * 2048 + 0 * 16) < 2 ^ (k + 1) ∧
      adjustAtlasCalc 2048 2048 0 16 8 16 =
        (min 2048 (if (2 ^ (k + 1) + 2048 * 16 - 1) / (2048 * 16) * 16 ≠ 16
                   then 2048
                   else 2 ^ (k + 1) / (8 * 16) * 8),
         min 2048 ((2 ^ (k + 1) + 2048 * 16 - 1) / (2048 * 16) * 16)) :=
  adjustAtlasCalc_formula 2048 2048 0 16 8 16 (by decide) (by decide) (by decide)
    (by decide) (by decide) (by decide) (by decide)

/-! ### Claim C7: re-running the capacity check after a resize -/

/-- C7 counterexample: limit `700×1000`, cell `10×100`, fill cursor at
`(650, 0)` (65 ten-pixel-wide cells consumed in the first row), no previous
texture (`0×0`, so the capacity check fires).  The growth computes
`newArea = 65536`, a single partial row, and `wantedWidth = 65536 / 1000 * 10
= 650` — equal to the fill cursor's x.  Re-invoking the capacity check with the
unchanged fill cursor `(650, 0)` against the new `650×100` texture triggers
again. -/
theorem adjustAtlas_recheck_counterexample :
    atlasNeedsResize 650 0 0 0 = true ∧
    adjustAtlasCalc 700 1000 650 0 10 100 = (650, 100) ∧
    atlasNeedsResize 650 0 650 100 = true := by
  refine ⟨by decide, by decide, by decide⟩

/-- C7 (amended): after a resize with the fill cursor unchanged, the fill
cursor always lies strictly above the new texture's bottom edge (no vertical
re-trigger), and whenever the chosen width is the full hardware limit — in
particular whenever the result spans more than one row — the cursor also lies
strictly left of the right edge, so the capacity check does not fire again.
(When the growth yields a single partial row the new width can coincide with
the cursor's x exactly, and the check can re-trigger; see the counterexample.) -/
theorem adjustAtlas_recheck (limitX limitY posX posY cellX cellY : Nat)
    (hx : 0 < cellX) (hy : 0 < cellY) (hL : 0 < limitX)
    (hLX : limitX < 2 ^ 16) (hLY : limitY < 2 ^ 16)
    (hb : max (64 * (cellX * cellY)) (posY * limitX + posX * cellY) < 2 ^ 31)
    (hP : limitX * cellY < 2 ^ 31)
    (hpx : posX < limitX) (hpy : posY < limitY) :
    posY < (adjustAtlasCalc limitX limitY posX posY cellX cellY).2 ∧
    ((adjustAtlasCalc limitX limitY posX posY cellX cellY).1 = limitX →
      atlasNeedsResize posX posY
        (adjustAtlasCalc limitX limitY posX posY cellX cellY).1
        (adjustAtlasCalc limitX limitY posX posY cellX cellY).2 = false) := by
  obtain ⟨k, hA, hk1, hk2, _⟩ := atlasNewArea_spec limitX posX posY cellX cellY hx hy hb
  have hH := atlasWantedHeight_eq limitX posX posY cellX cellY hx hy hL hb hP
  have hPpos : 0 < limitX * cellY := Nat.mul_pos hL hy
  have hceil : atlasNewArea limitX posX posY cellX cellY
      ≤ (atlasNewArea limitX posX posY cellX cellY + limitX * cellY - 1)
        / (limitX * cellY) * (limitX * cellY) :=
    le_ceil_mul _ _ hPpos
  have hcur : posY * limitX ≤ max (64 * (cellX * cellY)) (posY * limitX + posX * cellY) :=
    le_trans (Nat.le_add_right _ _) (le_max_right _ _)
  have hstep : posY * limitX <
      (atlasNewArea limitX posX posY cellX cellY + limitX * cellY - 1)
        / (limitX * cellY) * (limitX * cellY) := by
    have : max (64 * (cellX * cellY)) (posY * limitX + posX * cellY)
        < atlasNewArea limitX posX posY cellX cellY := by rw [hA]; exact hk2
    omega
  have hqY : posY <
      (atlasNewArea limitX posX posY cellX cellY + limitX * cellY - 1)
        / (limitX * cellY) * cellY := by
    have hrearr : (atlasNewArea limitX posX posY cellX cellY + limitX * cellY - 1)
        / (limitX * cellY) * (limitX * cellY)
        = ((atlasNewArea limitX posX posY cellX cellY + limitX * cellY - 1)
            / (limitX * cellY) * cellY) * limitX := by ring
    rw [hrearr] at hstep
    exact lt_of_mul_lt_mul_right hstep (Nat.zero_le limitX)
  have hsnd : (adjustAtlasCalc limitX limitY posX posY cellX cellY).2 =
      min limitY ((atlasNewArea limitX posX posY cellX cellY + limitX * cellY - 1)
        / (limitX * cellY) * cellY) := by
    unfold adjustAtlasCalc
    rw [hH, min_mod16 _ _ hLY]
  constructor
  · rw [hsnd]
    exact lt_min hpy hqY
  · intro hfst
    have hsnd' : posY < (adjustAtlasCalc limitX limitY posX posY cellX cellY).2 := by
      rw [hsnd]; exact lt_min hpy hqY
    have hfst' : posX < (adjustAtlasCalc limitX limitY posX posY cellX cellY).1 := by
      rw [hfst]; exact hpx
    simp [atlasNeedsResize, hsnd', hfst']

/-- Witness for the amended C7 (`limit 2048×2048`, `cell 8×16`, fill cursor
`(0, 16)`; the growth yields `2048×32` and the check does not re-trigger). -/
theorem adjustAtlas_recheck_witness :
    16 < (adjustAtlasCalc 2048 2048 0 16 8 16).2 ∧
    ((adjustAtlasCalc 2048 2048 0 16 8 16).1 = 2048 →
      atlasNeedsResize 0 16
        (adjustAtlasCalc 2048 2048 0 16 8 16).1
        (adjustAtlasCalc 2048 2048 0 16 8 16).2 = false) :=
  adjustAtlas_recheck 2048 2048 0 16 8 16 (by decide) (by decide) (by decide)
    (by decide) (by decide) (by decide) (by decide) (by decide) (by decide)

/-! ## `AtlasEngine::_adjustAtlasSize`, copy-preserving path (lines 256-276) -/

/-- One `CopySubresourceRegion1` region copy from the old atlas texture into the
new one: destination coordinates, source box and the copy-flags argument. -/
structure AtlasGrowthCopy where
  dstX : Nat
  dstY : Nat
  srcLeft : Nat
  srcTop : Nat
  srcRight : Nat
  srcBottom : Nat
  copyFlags : Nat
deriving DecidableEq

/-- Value of `D3D11_COPY_NO_OVERWRITE` in `d3d11.h`. -/
def D3D11_COPY_NO_OVERWRITE : Nat := 1

/-- Lines 256-269: `copyFromExisting = _r.atlasSizeInPixel != u16x2{}`; if so,
the whole extent of the old texture (`box = (0,0)-(oldW,oldH)`) is copied to
the new texture's origin with `D3D11_COPY_NO_OVERWRITE`; otherwise no copy is
issued. -/
def adjustAtlasCopy (oldSize : Nat × Nat) : Option AtlasGrowthCopy :=
  if oldSize ≠ (0, 0) then
    some { dstX := 0, dstY := 0, srcLeft := 0, srcTop := 0,
           srcRight := oldSize.1, srcBottom := oldSize.2,
           copyFlags := D3D11_COPY_NO_OVERWRITE }
  else none

/-- Line 276: `WI_SetFlagIf(_r.invalidations, RenderInvalidations::Cursor,
!copyFromExisting)` — the Cursor invalidation bit after `_adjustAtlasSize`. -/
def adjustAtlasCursorInvalidation (oldSize : Nat × Nat) (invCursor : Bool) : Bool :=
  invCursor || decide (oldSize = (0, 0))

/-- C6: on every atlas growth with a previous texture, the entire
previously-used rectangle of the old texture (contained in the full old extent)
is copied to the new texture's origin and the Cursor flag is left unchanged; on
a cold first allocation no copy is issued and the Cursor invalidation flag is
forced set. -/
theorem adjustAtlas_copy_preserves (oldSize : Nat × Nat) (invCursor : Bool) :
    (oldSize ≠ (0, 0) →
      adjustAtlasCopy oldSize =
        some { dstX := 0, dstY := 0, srcLeft := 0, srcTop := 0,
               srcRight := oldSize.1, srcBottom := oldSize.2,
               copyFlags := D3D11_COPY_NO_OVERWRITE } ∧
      (∀ x y, x < oldSize.1 → y < oldSize.2 →
        ∃ c, adjustAtlasCopy oldSize = some c ∧
          c.srcLeft ≤ x ∧ x < c.srcRight ∧ c.srcTop ≤ y ∧ y < c.srcBottom ∧
          c.dstX = 0 ∧ c.dstY = 0) ∧
      adjustAtlasCursorInvalidation oldSize invCursor = invCursor) ∧
    (oldSize = (0, 0) →
      adjustAtlasCopy oldSize = none ∧
      adjustAtlasCursorInvalidation oldSize invCursor = true) := by
  constructor
  · intro h
    have hc : adjustAtlasCopy oldSize =
        some { dstX := 0, dstY := 0, srcLeft := 0, srcTop := 0,
               srcRight := oldSize.1, srcBottom := oldSize.2,
               copyFlags := D3D11_COPY_NO_OVERWRITE } := by
      unfold adjustAtlasCopy
      rw [if_pos h]
    refine ⟨hc, ?_, ?_⟩
    · intro x y hx hy
      exact ⟨_, hc, Nat.zero_le x, hx, Nat.zero_le y, hy, rfl, rfl⟩
    · unfold adjustAtlasCursorInvalidation
      rw [decide_eq_false h, Bool.or_false]
  · intro h
    have hc : adjustAtlasCopy oldSize = none := by
      unfold adjustAtlasCopy
      rw [if_neg (not_not_intro h)]
    refine ⟨hc, ?_⟩
    unfold adjustAtlasCursorInvalidation
    rw [decide_eq_true h, Bool.or_true]

/-- Witness for C6: a warm growth from a `64×64` texture, and a cold growth. -/
theorem adjustAtlas_copy_preserves_witness :
    (adjustAtlasCopy (64, 64) =
      some { dstX := 0, dstY := 0, srcLeft := 0, srcTop := 0,
             srcRight := 64, srcBottom := 64,
             copyFlags := D3D11_COPY_NO_OVERWRITE } ∧
     adjustAtlasCursorInvalidation (64, 64) false = false) ∧
    (adjustAtlasCopy (0, 0) = none ∧
     adjustAtlasCursorInvalidation (0, 0) false = true) := by
  have h1 := (adjustAtlas_copy_preserves (64, 64) false).1 (by decide)
  have h2 := (adjustAtlas_copy_preserves (0, 0) false).2 rfl
  exact ⟨⟨h1.1, h1.2.2⟩, h2⟩

/-! ## `AtlasEngine::_reserveScratchpadSize` (lines 279-349) -/

/-- The `_r.scratchpadCellWidth` / `_r.maxEncounteredCellCount` pair. -/
structure ScratchpadState where
  scratchpadCellWidth : Nat
  maxEncounteredCellCount : Nat
deriving DecidableEq

/-- Pixel dimensions of the recreated scratchpad surface
(`desc.Width = cellSize.x * newWidth`, `desc.Height = cellSize.y`,
lines 310-311). -/
structure ScratchpadSurface where
  widthPx : Nat
  heightPx : Nat
deriving DecidableEq

/-- Line 290: `newWidth = max(max(2, minWidth), scratchpadCellWidth +
(scratchpadCellWidth >> 1))`. -/
def reserveScratchpadNewWidth (cap minWidth : Nat) : Nat :=
  max (max 2 minWidth) (cap + cap / 2)

/-- Lines 279-349: early return when `minWidth <= scratchpadCellWidth`;
otherwise the surface is recreated `newWidth` cells wide and one cell tall and
— line 347 — the recorded capacity is set to `_r.maxEncounteredCellCount`
(not to `newWidth`). -/
def reserveScratchpadSize (cellX cellY : Nat) (st : ScratchpadState) (minWidth : Nat) :
    ScratchpadState × Option ScratchpadSurface :=
  if minWidth ≤ st.scratchpadCellWidth then (st, none)
  else
    ({ st with scratchpadCellWidth := st.maxEncounteredCellCount },
     some { widthPx := cellX * reserveScratchpadNewWidth st.scratchpadCellWidth minWidth,
            heightPx := cellY })

/-- C4 counterexample: the cursor path calls `_reserveScratchpadSize(1)`; on a
fresh state (capacity 0, no glyph encountered yet) the surface is regrown to 2
cells (`16×16` px for an `8×16` cell) but the recorded capacity is set to
`maxEncounteredCellCount = 0 < 1 = minCellWidth`, violating the claimed
post-condition `capacity ≥ minCellWidth`. -/
theorem reserveScratchpad_capacity_counterexample :
    reserveScratchpadSize 8 16 ⟨0, 0⟩ 1 = (⟨0, 0⟩, some ⟨16, 16⟩) ∧
    ¬ 1 ≤ (reserveScratchpadSize 8 16 ⟨0, 0⟩ 1).1.scratchpadCellWidth := by
  refine ⟨by decide, by decide⟩

/-- C4 (amended): `reserve(minCellWidth)` regrows nothing when
`minCellWidth ≤ capacity`; otherwise it regrows the surface to
`max(2, minCellWidth, capacity + capacity / 2)` cells wide and one cell tall —
an allocated width always ≥ `minCellWidth` — but records as new capacity the
widest-glyph-span counter `maxEncounteredCellCount` rather than the allocated
width, so the recorded capacity is ≥ `minCellWidth` exactly when
`minCellWidth ≤ maxEncounteredCellCount` (true for the per-frame call, whose
argument is that counter, but not for the cursor's `reserve(1)` before any
glyph has been encountered). -/
theorem reserveScratchpadSize_spec (cellX cellY cap maxEnc minWidth : Nat) :
    (minWidth ≤ cap →
      reserveScratchpadSize cellX cellY ⟨cap, maxEnc⟩ minWidth = (⟨cap, maxEnc⟩, none)) ∧
    (cap < minWidth →
      reserveScratchpadSize cellX cellY ⟨cap, maxEnc⟩ minWidth =
        (⟨maxEnc, maxEnc⟩,
         some ⟨cellX * max (max 2 minWidth) (cap + cap / 2), cellY⟩) ∧
      minWidth ≤ max (max 2 minWidth) (cap + cap / 2) ∧
      (minWidth ≤ maxEnc →
        minWidth ≤ (reserveScratchpadSize cellX cellY ⟨cap, maxEnc⟩ minWidth).1.scratchpadCellWidth)) := by
  constructor
  · intro h
    simp [reserveScratchpadSize, h]
  · intro h
    have hn : ¬ minWidth ≤ cap := by omega
    refine ⟨?_, ?_, ?_⟩
    · simp [reserveScratchpadSize, hn, reserveScratchpadNewWidth]
    · exact le_trans (le_max_right 2 minWidth) (le_max_left (max 2 minWidth) (cap + cap / 2))
    · intro hme
      simp [reserveScratchpadSize, hn, hme]

/-- Witness for the amended C4: the per-frame call
`_reserveScratchpadSize(maxEncounteredCellCount)` with capacity 2 and counter 4. -/
theorem reserveScratchpadSize_spec_witness :
    reserveScratchpadSize 8 16 ⟨2, 4⟩ 4 = (⟨4, 4⟩, some ⟨8 * max (max 2 4) (2 + 2 / 2), 16⟩) ∧
    4 ≤ max (max 2 4) (2 + 2 / 2) ∧
    4 ≤ (reserveScratchpadSize 8 16 ⟨2, 4⟩ 4).1.scratchpadCellWidth := by
  have h := (reserveScratchpadSize_spec 8 16 2 4 4).2 (by decide)
  exact ⟨h.1, h.2.1, h.2.2 (by decide)⟩

/-! ## `AtlasEngine::_drawGlyph` (lines 368-427) -/

/-- The values of `D2D1_TEXT_ANTIALIAS_MODE`. -/
inductive D2DTextAntialiasMode
  | default
  | cleartype
  | grayscale
  | aliased
deriving DecidableEq

/-- Text antialiasing mode in effect when a glyph is rasterized into the
scratchpad.  The render target's mode is initialised to
`_api.realizedAntialiasingMode` when the scratchpad is (re)created (line 336);
`_drawGlyph` reassigns it per glyph only when the realized mode is ClearType
(lines 403-406): colored glyphs are then downgraded to grayscale, others keep
ClearType.  Under any other realized mode the initial mode stays in effect. -/
def rasterTextAntialiasMode (realized : D2DTextAntialiasMode) (coloredGlyph : Bool) :
    D2DTextAntialiasMode :=
  if realized = .cleartype then
    (if coloredGlyph then .grayscale else .cleartype)
  else realized

/-- C3 counterexample: with the configured (realized) antialiasing mode
`aliased`, a colored glyph is rasterized with the aliased mode, not grayscale —
the claim's "always grayscale, regardless of the configured mode" fails. -/
theorem colored_glyph_not_always_grayscale :
    ¬ rasterTextAntialiasMode .aliased true = .grayscale := by decide

/-- C3 (amended): a colored glyph is never rasterized with the sub-pixel
(ClearType) mode: when the configured mode is ClearType it is downgraded to
grayscale for that glyph, and under any other configured mode that mode itself
(which is never ClearType) stays in effect. -/
theorem colored_glyph_never_cleartype (realized : D2DTextAntialiasMode) :
    rasterTextAntialiasMode realized true ≠ .cleartype ∧
    (realized = .cleartype → rasterTextAntialiasMode realized true = .grayscale) ∧
    (realized ≠ .cleartype → rasterTextAntialiasMode realized true = realized) := by
  cases realized <;> refine ⟨by decide, ?_, ?_⟩ <;> intro h <;>
    first
      | decide
      | exact absurd h (by decide)

/-- Witness for the amended C3 at the ClearType configuration. -/
theorem colored_glyph_never_cleartype_witness :
    rasterTextAntialiasMode .cleartype true ≠ .cleartype ∧
    rasterTextAntialiasMode .cleartype true = .grayscale :=
  ⟨(colored_glyph_never_cleartype .cleartype).1,
   (colored_glyph_never_cleartype .cleartype).2.1 rfl⟩

/-- One queued `(key, value)` pair of the glyph queue, restricted to the fields
`_drawGlyph` reads: `key->charCount`, `key->attributes.cellCount`,
`key->attributes.bold/italic`, `value->flags & ColoredGlyph`,
`value->coords[]`. -/
structure AtlasQueueItem where
  charCount : Nat
  cellCount : Nat
  bold : Bool
  italic : Bool
  colored : Bool
  coords : List (Nat × Nat)
deriving DecidableEq

/-- One `CopySubresourceRegion1` call from the scratchpad into the atlas:
source box, destination coordinates and the copy-flags argument. -/
structure CopyCall where
  srcLeft : Nat
  srcTop : Nat
  srcRight : Nat
  srcBottom : Nat
  dstX : Nat
  dstY : Nat
  copyFlags : Nat
deriving DecidableEq

/-- `AtlasEngine::_copyScratchpadTile` (lines 495-536, GPU-surface branch):
copies the single-cell tile `scratchpadIndex` of the scratchpad
(box `[index * cellX, index * cellX + cellX) × [0, cellY)`) to `target` in the
atlas, forwarding `copyFlags` unchanged to `CopySubresourceRegion1`. -/
def copyScratchpadTile (cellSize : Nat × Nat) (scratchpadIndex : Nat)
    (target : Nat × Nat) (copyFlags : Nat) : CopyCall :=
  { srcLeft := scratchpadIndex * cellSize.1
    srcTop := 0
    srcRight := scratchpadIndex * cellSize.1 + cellSize.1
    srcBottom := cellSize.2
    dstX := target.1
    dstY := target.2
    copyFlags := copyFlags }

/-- Lines 417-426: `_drawGlyph` copies each of the glyph's `cellCount`
single-cell tiles to its reserved atlas coordinates, passing the literal `0`
as `copyFlags`: `_copyScratchpadTile(i, coords[i], 0)` (line 425).
Out-of-range coordinate reads (C++ UB) are modelled by `getD` with a dummy
default; the claims only use in-range items. -/
def drawGlyphCopies (cellSize : Nat × Nat) (item : AtlasQueueItem) : List CopyCall :=
  (List.range item.cellCount).map fun i =>
    copyScratchpadTile cellSize i (item.coords.getD i (0, 0)) 0

/-- Modelled from the spec: the third parameter of `_copyScratchpadTile` has a
default argument in the header `AtlasEngine.h`, which is not part of the
reviewed sources; §4.4 of the spec says the cursor tile is copied "with the
same non-overwrite hint", so the default is modelled as
`D3D11_COPY_NO_OVERWRITE`. -/
def defaultCopyFlags : Nat := D3D11_COPY_NO_OVERWRITE

/-- Line 492: `_drawCursor` ends with `_copyScratchpadTile(0, {})` — scratchpad
tile 0 to the zero-initialised target `u16x2{} = (0, 0)`, with the defaulted
copy flags. -/
def drawCursorCopy (cellSize : Nat × Nat) : CopyCall :=
  copyScratchpadTile cellSize 0 (0, 0) defaultCopyFlags

/-- C5 (code bug): every glyph tile copy issued by `_drawGlyph` passes
`copyFlags = 0` — no copy hint at all — although the comment directly above it
(lines 419-424) explains that `D3D11_COPY_NO_OVERWRITE` (= 1) is being
specified.  Evaluated at the failing input: a one-cell glyph whose tile lands
at atlas coordinate `(8, 0)`. -/
theorem drawGlyph_copy_flags_not_no_overwrite :
    (drawGlyphCopies (8, 16)
        { charCount := 1, cellCount := 1, bold := false, italic := false,
          colored := false, coords := [(8, 0)] }).map CopyCall.copyFlags = [0] ∧
    (0 : Nat) ≠ D3D11_COPY_NO_OVERWRITE := by
  refine ⟨by decide, by decide⟩

/-- Modelled from the spec: glyph-cell position assignment ("Allocation of
individual glyph cells (position assignment, row wrap) is delegated to an
external cache collaborator", §4.1) lives in code outside the reviewed
sources; §4.4 calls the cursor's atlas tile "a reserved cursor tile", so the
collaborator never hands the atlas origin tile to a glyph. -/
def glyphCoordsRespectCursorReservation (coords : List (Nat × Nat)) : Prop :=
  (0, 0) ∉ coords

/-- C10: every cursor redraw copies scratchpad tile 0 to atlas coordinate
`(0, 0)`, and (under the spec-modelled reservation of the origin tile by the
external allocator) no glyph tile copy ever targets `(0, 0)` — the atlas
origin tile is dedicated to the cursor shape. -/
theorem cursor_tile_is_atlas_origin (cellSize : Nat × Nat) (item : AtlasQueueItem)
    (hres : glyphCoordsRespectCursorReservation item.coords)
    (hlen : item.cellCount ≤ item.coords.length) :
    (drawCursorCopy cellSize).dstX = 0 ∧
    (drawCursorCopy cellSize).dstY = 0 ∧
    (drawCursorCopy cellSize).srcLeft = 0 ∧
    ∀ c ∈ drawGlyphCopies cellSize item, ¬ (c.dstX = 0 ∧ c.dstY = 0) := by
  refine ⟨rfl, rfl, Nat.zero_mul _, ?_⟩
  intro c hc
  simp only [drawGlyphCopies, List.mem_map, List.mem_range] at hc
  obtain ⟨i, hi, hceq⟩ := hc
  have hil : i < item.coords.length := lt_of_lt_of_le hi hlen
  have hget : item.coords.getD i (0, 0) = item.coords.get ⟨i, hil⟩ := by
    simp [List.getD_eq_getElem?_getD, List.getElem?_eq_getElem hil]
  have hne : item.coords.getD i (0, 0) ≠ (0, 0) := by
    rw [hget]
    exact fun he => hres (he ▸ List.get_mem item.coords i hil)
  subst hceq
  simp only [copyScratchpadTile]
  intro hcontra
  exact hne (Prod.ext_iff.mpr ⟨hcontra.1, hcontra.2⟩)

/-- Witness for C10: an `8×16` cell and a one-cell glyph placed at `(8, 0)`. -/
theorem cursor_tile_is_atlas_origin_witness :
    (drawCursorCopy (8, 16)).dstX = 0 ∧
    (drawCursorCopy (8, 16)).dstY = 0 ∧
    (drawCursorCopy (8, 16)).srcLeft = 0 ∧
    ∀ c ∈ drawGlyphCopies (8, 16)
        { charCount := 1, cellCount := 1, bold := false, italic := false,
          colored := true, coords := [(8, 0)] }, ¬ (c.dstX = 0 ∧ c.dstY = 0) :=
  cursor_tile_is_atlas_origin (8, 16)
    { charCount := 1, cellCount := 1, bold := false, italic := false,
      colored := true, coords := [(8, 0)] }
    (by simp only [glyphCoordsRespectCursorReservation]; decide) (by decide)

/-! ## `AtlasEngine::_drawCursor` (lines 429-493)

Device-independent-pixel geometry (`float` in the source) is embedded over `ℚ`;
the claims are structural facts about which rectangles are produced. -/

/-- The `CursorType` style enum (`Legacy`, `VerticalBar`, `Underscore`,
`EmptyBox`, `FullBox`, `DoubleUnderscore`); the `switch` default covers
`FullBox`. -/
inductive CursorType
  | legacy
  | verticalBar
  | underscore
  | emptyBox
  | fullBox
  | doubleUnderscore
deriving DecidableEq

/-- A `D2D1_RECT_F` in device-independent pixels. -/
structure RectF where
  left : ℚ
  top : ℚ
  right : ℚ
  bottom : ℚ
deriving DecidableEq

/-- Lines 437-469: the cursor rectangle, starting from the full cell
`(0, 0, cellW, cellH)` and adjusted per style.  `heightPercentage` enters as
the integer `100 - _r.cursorOptions.heightPercentage` cast to float. -/
def cursorRect (ct : CursorType) (cellW cellH lineWidth : ℚ) (heightPercentage : Nat) :
    RectF :=
  match ct with
  | .legacy =>
      { left := 0, top := cellH * ((100 : ℚ) - heightPercentage) / 100,
        right := cellW, bottom := cellH }
  | .verticalBar =>
      { left := 0, top := 0, right := lineWidth, bottom := cellH }
  | .emptyBox =>
      { left := lineWidth / 2, top := lineWidth / 2,
        right := cellW - lineWidth / 2, bottom := cellH - lineWidth / 2 }
  | .underscore | .doubleUnderscore =>
      { left := 0, top := cellH - lineWidth, right := cellW, bottom := cellH }
  | .fullBox =>
      { left := 0, top := 0, right := cellW, bottom := cellH }

/-- A D2D drawing call issued by `_drawCursor`: either a filled rectangle or a
stroked (`DrawRectangle`) one with a stroke width. -/
inductive CursorDrawOp
  | fillRectangle (r : RectF)
  | drawRectangle (r : RectF) (strokeWidth : ℚ)
deriving DecidableEq

/-- Lines 471-488: `EmptyBox` is stroked with width `lineWidth`, every other
style is filled; `DoubleUnderscore` additionally fills the same rectangle
shifted up by `2.0` device-independent units. -/
def drawCursorOps (ct : CursorType) (cellW cellH lineWidth : ℚ) (heightPercentage : Nat) :
    List CursorDrawOp :=
  let rect := cursorRect ct cellW cellH lineWidth heightPercentage
  let first := if ct = .emptyBox then CursorDrawOp.drawRectangle rect lineWidth
               else CursorDrawOp.fillRectangle rect
  if ct = .doubleUnderscore then
    [first, CursorDrawOp.fillRectangle { rect with top := rect.top - 2, bottom := rect.bottom - 2 }]
  else [first]

/-- C9: the cursor rectangles per style — `VerticalBar` has `left = top = 0`
and right edge at the line width; `EmptyBox` is a stroked rectangle inset by
`lineWidth / 2` on all four sides; `DoubleUnderscore` is exactly two filled
rectangles offset from each other by two device-independent units; `Legacy` is
a bottom bar whose height is `cellH * heightPercentage / 100`; the default
(`FullBox`) is the full cell. -/
theorem drawCursor_geometry (cellW cellH lineWidth : ℚ) (heightPercentage : Nat) :
    drawCursorOps .verticalBar cellW cellH lineWidth heightPercentage =
      [.fillRectangle { left := 0, top := 0, right := lineWidth, bottom := cellH }] ∧
    drawCursorOps .emptyBox cellW cellH lineWidth heightPercentage =
      [.drawRectangle
        { left := lineWidth / 2, top := lineWidth / 2,
          right := cellW - lineWidth / 2, bottom := cellH - lineWidth / 2 } lineWidth] ∧
    drawCursorOps .doubleUnderscore cellW cellH lineWidth heightPercentage =
      [.fillRectangle { left := 0, top := cellH - lineWidth, right := cellW, bottom := cellH },
       .fillRectangle
        { left := 0, top := cellH - lineWidth - 2, right := cellW, bottom := cellH - 2 }] ∧
    drawCursorOps .legacy cellW cellH lineWidth heightPercentage =
      [.fillRectangle
        { left := 0, top := cellH * ((100 : ℚ) - heightPercentage) / 100,
          right := cellW, bottom := cellH }] ∧
    cellH - cellH * ((100 : ℚ) - heightPercentage) / 100 = cellH * heightPercentage / 100 ∧
    drawCursorOps .fullBox cellW cellH lineWidth heightPercentage =
      [.fillRectangle { left := 0, top := 0, right := cellW, bottom := cellH }] := by
  refine ⟨rfl, rfl, rfl, rfl, by ring, rfl⟩

/-! ## `AtlasEngine::Present` (lines 32-146)

`Present` is a straight-line sequence of steps; every `THROW_IF_FAILED` site is
a fallible GPU/D2D call.  A negative HRESULT makes the wrapped call throw,
which aborts the rest of the frame and reaches the catch block, so `Present`
returns that single HRESULT.  The embedding lists, in source order, the
fallible calls the frame will attempt (state-dependent branches resolved
against the state reached on the success path — identical to the attempted
prefix in every run, because state updates never depend on a failure code and
execution stops at the first failure) and executes them against an oracle
assigning each call its HRESULT.  Calls returning `void`
(`CopySubresourceRegion1`, `Draw`, shader binding, …) cannot throw and do not
appear in the list. -/

/-- The fallible GPU/D2D calls of one frame, in source order:
`_adjustAtlasSize` (`CreateTexture2D` line 252, `CreateShaderResourceView`
line 253), `_reserveScratchpadSize` (`CreateTexture2D` line 317,
`CreateDxgiSurfaceRenderTarget` line 324, `CreateSolidColorBrush` line 343),
`_drawGlyph` (`CreateTextLayout` line 388, `EndDraw` line 415), `_drawCursor`
(`EndDraw` line 490), `_updateConstantBuffer` (`Map` line 179), then the body
of `Present` itself (`Map` line 55, `Reset` lines 84 and 89, `Close` line 126,
`IDXGISwapChain::Present` line 138). -/
inductive GpuCall
  | createAtlasTexture
  | createAtlasSRV
  | createScratchpadTexture
  | createScratchpadRenderTarget
  | createScratchpadBrush
  | createTextLayout
  | glyphEndDraw
  | cursorEndDraw
  | mapConstantBuffer
  | mapCellBuffer
  | resetCommandAllocator
  | resetCommandList
  | closeCommandList
  | swapChainPresent
deriving DecidableEq

/-- The `_r` fields (consumer-owned render state) that the per-frame pipeline
reads and writes. -/
structure RState where
  atlasPosition : Nat × Nat
  atlasSizeInPixel : Nat × Nat
  atlasSizeInPixelLimit : Nat × Nat
  cellSize : Nat × Nat
  scratchpadCellWidth : Nat
  maxEncounteredCellCount : Nat
  glyphQueue : List AtlasQueueItem
  invCursor : Bool
  invConstBuffer : Bool
deriving DecidableEq

/-- `_adjustAtlasSize` as a state transformer plus its fallible calls: early
return when the fill cursor is strictly inside the texture, otherwise the
texture is recreated at `adjustAtlasCalc` dimensions (two fallible creations)
and the Cursor flag is forced on a cold start. -/
def adjustAtlasSizeStep (st : RState) : RState × List GpuCall :=
  if atlasNeedsResize st.atlasPosition.1 st.atlasPosition.2
      st.atlasSizeInPixel.1 st.atlasSizeInPixel.2 then
    ({ st with
        atlasSizeInPixel := adjustAtlasCalc st.atlasSizeInPixelLimit.1 st.atlasSizeInPixelLimit.2
          st.atlasPosition.1 st.atlasPosition.2 st.cellSize.1 st.cellSize.2,
        invCursor := adjustAtlasCursorInvalidation st.atlasSizeInPixel st.invCursor },
     [.createAtlasTexture, .createAtlasSRV])
  else (st, [])

/-- `_reserveScratchpadSize` as a state transformer plus its fallible calls
(three fallible creations on regrow; `WI_SetAllFlags(…, ConstBuffer)` line 348). -/
def reserveScratchpadSizeStep (st : RState) (minWidth : Nat) : RState × List GpuCall :=
  match (reserveScratchpadSize st.cellSize.1 st.cellSize.2
      ⟨st.scratchpadCellWidth, st.maxEncounteredCellCount⟩ minWidth).2 with
  | none => (st, [])
  | some _ =>
      ({ st with
          scratchpadCellWidth := (reserveScratchpadSize st.cellSize.1 st.cellSize.2
            ⟨st.scratchpadCellWidth, st.maxEncounteredCellCount⟩ minWidth).1.scratchpadCellWidth,
          invConstBuffer := true },
       [.createScratchpadTexture, .createScratchpadRenderTarget, .createScratchpadBrush])

/-- `_processGlyphQueue` (lines 351-364): two fallible calls per queued item;
the queue is cleared only after the whole list is processed. -/
def processGlyphQueueStep (st : RState) : RState × List GpuCall :=
  if st.glyphQueue.isEmpty then (st, [])
  else ({ st with glyphQueue := [] },
        st.glyphQueue.flatMap fun _ => [GpuCall.createTextLayout, GpuCall.glyphEndDraw])

/-- `_drawCursor` (lines 429-493): `_reserveScratchpadSize(1)` first, then one
fallible `EndDraw`. -/
def drawCursorStep (st : RState) : RState × List GpuCall :=
  ((reserveScratchpadSizeStep st 1).1,
   (reserveScratchpadSizeStep st 1).2 ++ [.cursorEndDraw])

/-- Lines 39-43 of `Present`: `_drawCursor` runs iff the Cursor invalidation
flag is set, which is then cleared. -/
def cursorFlagStep (st : RState) : RState × List GpuCall :=
  if st.invCursor then
    ({ (drawCursorStep st).1 with invCursor := false }, (drawCursorStep st).2)
  else (st, [])

/-- Lines 46-50 of `Present`: `_updateConstantBuffer` (one fallible `Map`)
runs iff the ConstBuffer invalidation flag is set, which is then cleared. -/
def constBufferFlagStep (st : RState) : RState × List GpuCall :=
  if st.invConstBuffer then
    ({ st with invConstBuffer := false }, [GpuCall.mapConstantBuffer])
  else (st, [])

/-- State after `_adjustAtlasSize`. -/
def presentState1 (st : RState) : RState := (adjustAtlasSizeStep st).1

/-- State after `_reserveScratchpadSize(_r.maxEncounteredCellCount)`. -/
def presentState2 (st : RState) : RState :=
  (reserveScratchpadSizeStep (presentState1 st) (presentState1 st).maxEncounteredCellCount).1

/-- State after `_processGlyphQueue`. -/
def presentState3 (st : RState) : RState := (processGlyphQueueStep (presentState2 st)).1

/-- State after the conditional cursor redraw. -/
def presentState4 (st : RState) : RState := (cursorFlagStep (presentState3 st)).1

/-- The unconditional tail of `Present`: cell-buffer `Map` (line 55), command
allocator / list `Reset` (lines 84, 89), command list `Close` (line 126) and —
last — the swap-chain `Present` (line 138). -/
def presentTailCalls : List GpuCall :=
  [.mapCellBuffer, .resetCommandAllocator, .resetCommandList, .closeCommandList,
   .swapChainPresent]

/-- All fallible calls one `Present` frame attempts, in source order. -/
def presentCalls (st : RState) : List GpuCall :=
  (adjustAtlasSizeStep st).2 ++
  (reserveScratchpadSizeStep (presentState1 st) (presentState1 st).maxEncounteredCellCount).2 ++
  (processGlyphQueueStep (presentState2 st)).2 ++
  (cursorFlagStep (presentState3 st)).2 ++
  (constBufferFlagStep (presentState4 st)).2 ++
  presentTailCalls

/-- Executes calls in order against the HRESULT oracle, `THROW_IF_FAILED`
style: the first call with a negative HRESULT aborts the run and its HRESULT is
the result; the returned list is the trace of calls actually issued (the
failing call included). -/
def runCalls (oracle : GpuCall → Int) : List GpuCall → List GpuCall × Option Int
  | [] => ([], none)
  | c :: rest =>
      if oracle c < 0 then ([c], some (oracle c))
      else ((c :: (runCalls oracle rest).1), (runCalls oracle rest).2)

/-- `AtlasEngine::Present` for one frame: `none` models the `S_OK` return,
`some e` the HRESULT surfaced through the catch block. -/
def present (st : RState) (oracle : GpuCall → Int) : List GpuCall × Option Int :=
  runCalls oracle (presentCalls st)

/-- A frame was actually presented: the swap-chain `Present` call was issued
and did not fail. -/
def framePresented (oracle : GpuCall → Int) (trace : List GpuCall) : Prop :=
  GpuCall.swapChainPresent ∈ trace ∧ 0 ≤ oracle GpuCall.swapChainPresent

theorem runCalls_ok (oracle : GpuCall → Int) :
    ∀ l : List GpuCall, (runCalls oracle l).2 = none →
      (runCalls oracle l).1 = l ∧ ∀ c ∈ l, 0 ≤ oracle c := by
  intro l
  induction l with
  | nil => intro _; exact ⟨rfl, by simp⟩
  | cons c rest ih =>
    intro h
    by_cases hc : oracle c < 0
    · simp [runCalls, hc] at h
    · simp only [runCalls, if_neg hc] at h ⊢
      obtain ⟨h1, h2⟩ := ih h
      refine ⟨by rw [h1], ?_⟩
      intro x hx
      rcases List.mem_cons.1 hx with hx | hx
      · subst hx; omega
      · exact h2 x hx

theorem runCalls_err (oracle : GpuCall → Int) :
    ∀ l : List GpuCall, ∀ e, (runCalls oracle l).2 = some e →
      e < 0 ∧ ∃ pre c post, l = pre ++ c :: post ∧
        (runCalls oracle l).1 = pre ++ [c] ∧
        (∀ x ∈ pre, 0 ≤ oracle x) ∧ oracle c = e := by
  intro l
  induction l with
  | nil => intro e h; simp [runCalls] at h
  | cons c rest ih =>
    intro e h
    by_cases hc : oracle c < 0
    · simp only [runCalls, if_pos hc] at h ⊢
      rw [Option.some_inj] at h
      refine ⟨by omega, [], c, rest, by simp, by simp, by simp, h⟩
    · simp only [runCalls, if_neg hc] at h ⊢
      obtain ⟨he, pre, c', post, hl, ht, hpre, hor⟩ := ih e h
      refine ⟨he, c :: pre, c', post, by rw [hl]; rfl, by rw [ht]; rfl, ?_, hor⟩
      intro x hx
      rcases List.mem_cons.1 hx with hx | hx
      · subst hx; omega
      · exact hpre x hx

theorem swap_not_in_adjustStep (st : RState) :
    GpuCall.swapChainPresent ∉ (adjustAtlasSizeStep st).2 := by
  unfold adjustAtlasSizeStep
  split <;> simp

theorem swap_not_in_reserveStep (st : RState) (minWidth : Nat) :
    GpuCall.swapChainPresent ∉ (reserveScratchpadSizeStep st minWidth).2 := by
  unfold reserveScratchpadSizeStep
  split <;> simp

theorem swap_not_in_glyphStep (st : RState) :
    GpuCall.swapChainPresent ∉ (processGlyphQueueStep st).2 := by
  unfold processGlyphQueueStep
  split
  · simp
  · intro h
    simp only [List.mem_flatMap] at h
    obtain ⟨a, _, hmem⟩ := h
    simp at hmem

theorem swap_not_in_cursorStep (st : RState) :
    GpuCall.swapChainPresent ∉ (cursorFlagStep st).2 := by
  unfold cursorFlagStep drawCursorStep
  split
  · intro h
    rcases List.mem_append.1 h with h | h
    · exact swap_not_in_reserveStep st 1 h
    · simp at h
  · simp

theorem swap_not_in_constBufferStep (st : RState) :
    GpuCall.swapChainPresent ∉ (constBufferFlagStep st).2 := by
  unfold constBufferFlagStep
  split <;> simp

/-- `presentCalls` ends with the swap-chain `Present`, which appears nowhere
else in the frame. -/
theorem presentCalls_split (st : RState) :
    ∃ S, presentCalls st = S ++ [GpuCall.swapChainPresent] ∧
      GpuCall.swapChainPresent ∉ S := by
  refine ⟨(adjustAtlasSizeStep st).2 ++
    (reserveScratchpadSizeStep (presentState1 st) (presentState1 st).maxEncounteredCellCount).2 ++
    (processGlyphQueueStep (presentState2 st)).2 ++
    (cursorFlagStep (presentState3 st)).2 ++
    (constBufferFlagStep (presentState4 st)).2 ++
    [.mapCellBuffer, .resetCommandAllocator, .resetCommandList, .closeCommandList], ?_, ?_⟩
  · simp [presentCalls, presentTailCalls]
  · intro h
    rcases List.mem_append.1 h with h | h
    · rcases List.mem_append.1 h with h | h
      · rcases List.mem_append.1 h with h | h
        · rcases List.mem_append.1 h with h | h
          · rcases List.mem_append.1 h with h | h
            · exact swap_not_in_adjustStep st h
            · exact swap_not_in_reserveStep _ _ h
          · exact swap_not_in_glyphStep _ h
        · exact swap_not_in_cursorStep _ h
      · exact swap_not_in_constBufferStep _ h
    · simp at h

/-- C1: for every frame, `Present` either completes the whole pipeline —
every fallible call, the swap-chain present included, succeeded — or returns
the HRESULT of the first failing GPU call: everything before it succeeded,
nothing after it was issued, and the swap-chain present either was never
reached or is itself the failing call, so no frame is presented. -/
theorem present_no_partial_frame (st : RState) (oracle : GpuCall → Int) :
    ((present st oracle).2 = none →
      (present st oracle).1 = presentCalls st ∧
      (∀ c ∈ presentCalls st, 0 ≤ oracle c) ∧
      framePresented oracle (present st oracle).1) ∧
    (∀ e, (present st oracle).2 = some e →
      e < 0 ∧
      ¬ framePresented oracle (present st oracle).1 ∧
      ∃ pre c, (present st oracle).1 = pre ++ [c] ∧
        (∀ x ∈ pre, 0 ≤ oracle x) ∧ oracle c = e ∧
        GpuCall.swapChainPresent ∉ pre) := by
  obtain ⟨S, hsplit, hnotin⟩ := presentCalls_split st
  unfold present
  constructor
  · intro h
    obtain ⟨h1, h2⟩ := runCalls_ok oracle (presentCalls st) h
    refine ⟨h1, h2, ?_, ?_⟩
    · rw [h1, hsplit]
      exact List.mem_append.2 (Or.inr (by simp))
    · exact h2 _ (by rw [hsplit]; exact List.mem_append.2 (Or.inr (by simp)))
  · intro e h
    obtain ⟨he, pre, c, post, hl, ht, hpre, hor⟩ := runCalls_err oracle (presentCalls st) e h
    have hpre_no_swap : GpuCall.swapChainPresent ∉ pre := by
      rw [hsplit] at hl
      rcases List.append_eq_append_iff.1 hl.symm with ⟨a', ha1, _⟩ | ⟨c', hc1, hc2⟩
      · intro hx
        exact hnotin (ha1 ▸ List.mem_append.2 (Or.inl hx))
      · have hc' : c' = [] := by
          cases c' with
          | nil => rfl
          | cons y ys =>
            have := congrArg List.length hc2
            simp at this
        subst hc'
        simp only [List.append_nil] at hc1
        intro hx
        exact hnotin (hc1 ▸ hx)
    refine ⟨he, ?_, pre, c, ht, hpre, hor, hpre_no_swap⟩
    intro ⟨hmem, hok⟩
    rw [ht] at hmem
    rcases List.mem_append.1 hmem with hmem | hmem
    · exact hpre_no_swap hmem
    · simp only [List.mem_singleton] at hmem
      rw [← hmem] at hor
      omega

/-- Witness for C1: a steady-state frame (atlas sized, scratchpad sized, queue
empty, no invalidations) against an all-succeeding oracle presents the frame. -/
theorem present_no_partial_frame_witness :
    framePresented (fun _ => 0)
      (present
        { atlasPosition := (0, 0), atlasSizeInPixel := (64, 64),
          atlasSizeInPixelLimit := (2048, 2048), cellSize := (8, 16),
          scratchpadCellWidth := 2, maxEncounteredCellCount := 1,
          glyphQueue := [], invCursor := false, invConstBuffer := false }
        (fun _ => 0)).1 :=
  ((present_no_partial_frame
      { atlasPosition := (0, 0), atlasSizeInPixel := (64, 64),
        atlasSizeInPixelLimit := (2048, 2048), cellSize := (8, 16),
        scratchpadCellWidth := 2, maxEncounteredCellCount := 1,
        glyphQueue := [], invCursor := false, invConstBuffer := false }
      (fun _ => 0)).1 (by decide)).2.2

end AtlasEngine
